import Mathlib

/-!
Verification development for the parlanonimo server
(`src/server/index.js`): an ephemeral "bubble" message lifecycle over a
TTL key/value store, with real-time fanout, a bounded history log,
aggregate counters, a per-source cooldown guard and a seed scheduler.

The JavaScript is shallowly embedded: the relevant fragment of the JS
value universe is the inductive `JSVal`; JS numbers are rationals plus a
NaN marker (`JSNum`); the Redis keyspace is a list of TTL-stamped
entries; time is modelled in whole seconds, matching the store's
second-granularity TTL interface; `JSON.stringify`/`JSON.parse` of a
bubble are modelled by the `RVal.bubbleJson` constructor and its partial
inverse `parseBubble` (a corrupt stored record is `RVal.str`, on which
parsing fails).  Socket emissions are modelled as a list of `Event`s
tagged with their audience (originating viewer, broadcast, admin room).
-/

/-- Fragment of the JavaScript value universe reaching the handler:
`null`, `undefined`, `NaN` (kept apart from finite numbers), finite
numbers as rationals, and strings. -/
inductive JSVal where
  | vNull
  | vUndefined
  | vNaN
  | vNum (q : ℚ)
  | vStr (s : String)
deriving DecidableEq, Repr

/-- JavaScript number: NaN or a finite value (rationals stand in for the
floats actually used; every literal in the program is exactly
representable). -/
inductive JSNum where
  | nan
  | num (q : ℚ)
deriving DecidableEq, Repr

/-- Character-list test that `p` is an initial segment of `s`. -/
def listStarts : List Char → List Char → Bool
  | [], _ => true
  | _ :: _, [] => false
  | a :: as, b :: bs => a == b && listStarts as bs

/-- String prefix test used to model `redis.keys('bubble:*')` key
pattern matching. -/
def strStarts (p s : String) : Bool := listStarts p.data s.data

/-- Whitespace recognised by the embedding of `String.prototype.trim`
(the sources only ever contain ASCII whitespace). -/
def isWSCh (c : Char) : Bool := c == ' ' || c == '\t' || c == '\n' || c == '\r'

/-- Embedding of JS `trim`: drop whitespace from both ends. -/
def trimChars (cs : List Char) : List Char :=
  ((cs.dropWhile isWSCh).reverse.dropWhile isWSCh).reverse

/-- Embedding of `String(v).substring(0, n).trim()` as used on `name`
and `text` (character-level; the inputs exercised are in the basic
plane, where `substring` code units and characters coincide). -/
def substrTrim (n : ℕ) (s : String) : String := ⟨trimChars (s.data.take n)⟩

/-- Decimal digit test. -/
def isDigitCh (c : Char) : Bool := '0' ≤ c && c ≤ '9'

/-- Value of a digit string. -/
def digitsVal (cs : List Char) : ℕ :=
  cs.foldl (fun a c => 10 * a + (c.toNat - 48)) 0

/-- Parse an unsigned decimal numeral (`digits`, `digits.digits`,
`digits.`, `.digits`); anything else is not a number.  This is the
decimal core of JS `Number(string)` — the sources never feed it hex,
exponent or infinity forms. -/
def parseDecimal (cs : List Char) : Option ℚ :=
  let ip := cs.takeWhile isDigitCh
  let rest := cs.dropWhile isDigitCh
  match rest with
  | [] => if ip.isEmpty then none else some ((digitsVal ip : ℚ))
  | '.' :: fr =>
    if fr.all isDigitCh && !(ip.isEmpty && fr.isEmpty) then
      some ((digitsVal ip : ℚ) + (digitsVal fr : ℚ) / ((10 : ℚ) ^ fr.length))
    else none
  | _ => none

/-- JS `Number(string)`: trimmed empty string is `0`, an optionally
signed decimal numeral is its value, anything else is NaN. -/
def jsStrToNum (s : String) : JSNum :=
  match trimChars s.data with
  | [] => .num 0
  | '-' :: cs => match parseDecimal cs with | some q => .num (-q) | none => .nan
  | '+' :: cs => match parseDecimal cs with | some q => .num q | none => .nan
  | cs => match parseDecimal cs with | some q => .num q | none => .nan

/-- JS `Number(v)` coercion on the embedded value fragment. -/
def toNumber : JSVal → JSNum
  | .vNull => .num 0
  | .vUndefined => .nan
  | .vNaN => .nan
  | .vNum q => .num q
  | .vStr s => jsStrToNum s

/-- JS truthiness: `null`, `undefined`, `NaN`, `0` and `""` are falsy. -/
def truthy : JSVal → Bool
  | .vNull => false
  | .vUndefined => false
  | .vNaN => false
  | .vNum q => !(q == 0)
  | .vStr s => !(s == "")

/-- JS loose equality with `null` (`v == null`): true exactly for `null`
and `undefined`. -/
def isNullish : JSVal → Bool
  | .vNull => true
  | .vUndefined => true
  | _ => false

/-- JS `String(v)` on the embedded fragment (numbers only ever pass
through it as integers in this development). -/
def jsToString : JSVal → String
  | .vStr s => s
  | .vNull => "null"
  | .vUndefined => "undefined"
  | .vNaN => "NaN"
  | .vNum q => if q.den = 1 then toString q.num else toString q.num ++ "/" ++ toString q.den

/-- JS `a < c` where `a` may be NaN (every comparison with NaN is
false). -/
def jsLtNum (a : JSNum) (c : ℚ) : Bool :=
  match a with
  | .nan => false
  | .num q => decide (q < c)

/-- JS `a > c` where `a` may be NaN. -/
def jsGtNum (a : JSNum) (c : ℚ) : Bool :=
  match a with
  | .nan => false
  | .num q => decide (c < q)

/-- JS `Math.min(c, a)`: NaN absorbs. -/
def jsMin (c : ℚ) : JSNum → JSNum
  | .nan => .nan
  | .num q => .num (min c q)

/-- JS `Math.max(c, a)`: NaN absorbs. -/
def jsMax (c : ℚ) : JSNum → JSNum
  | .nan => .nan
  | .num q => .num (max c q)

/-- The central Bubble entity built by the `bubble:create` handler
(`src/server/index.js`, lines 152-160) and by `plantBatch`. -/
structure Bubble where
  id : String
  name : String
  text : String
  x : JSNum
  y : JSNum
  type : String
  createdAt : ℕ
deriving DecidableEq, Repr

/-- A value stored in Redis: either a raw string (cooldown sentinel
`'1'`, or a corrupt/foreign record) or the JSON encoding of a bubble,
modelled abstractly by carrying the bubble itself. -/
inductive RVal where
  | str (s : String)
  | bubbleJson (b : Bubble)
deriving DecidableEq, Repr

/-- Model of `JSON.parse` applied where a bubble is expected: a bubble
encoding parses back to the bubble, anything else throws (is `none`). -/
def parseBubble : RVal → Option Bubble
  | .bubbleJson b => some b
  | .str _ => none

/-- One TTL-stamped key/value entry of the ephemeral store.
`expiresAt` is absolute time in seconds. -/
structure Entry where
  key : String
  val : RVal
  expiresAt : ℕ
deriving DecidableEq, Repr

/-- An entry is live while the current time is before its expiry
(Redis removes it at expiry with no explicit delete). -/
def Entry.live (e : Entry) (now : ℕ) : Bool := decide (now < e.expiresAt)

/-- First entry with the given key, dead or alive (bookkeeping view of
the keyspace; reads always go through `getLive`). -/
def lookupKey (store : List Entry) (k : String) : Option Entry :=
  store.find? (fun e => e.key == k)

/-- Model of `redis.get`: the entry is visible only while live. -/
def getLive (store : List Entry) (k : String) (now : ℕ) : Option Entry :=
  (store.filter (fun e => e.live now)).find? (fun e => e.key == k)

/-- Model of `redis.setEx(k, ttl, v)`: replaces any previous entry for
`k` and stamps expiry `now + ttl`. -/
def setEx (store : List Entry) (k : String) (ttl : ℕ) (v : RVal) (now : ℕ) : List Entry :=
  ⟨k, v, now + ttl⟩ :: store.filter (fun e => !(e.key == k))

/-- Model of `redis.keys(p + '*')` over live entries: the keys of live
entries that start with `p`. -/
def liveKeysMatching (store : List Entry) (p : String) (now : ℕ) : List String :=
  ((store.filter (fun e => e.live now)).filter (fun e => strStarts p e.key)).map (fun e => e.key)

/-- Server-owned persisted state: the TTL keyspace (`bubble:*`,
`cooldown:*`), the `history:messages` list, and the two message
counters (`stats:total_messages`, `stats:today:<date>`). -/
structure ServerState where
  store : List Entry
  history : List RVal
  totalMessages : ℕ
  todayCount : ℕ
deriving DecidableEq, Repr

/-- Payload of an emitted socket event. -/
inductive EvPayload where
  | msg (s : String)
  | cooldownSecs (n : ℤ)
  | bubble (b : Bubble) (remainingMs : ℤ)
deriving DecidableEq, Repr

/-- An emitted socket event, tagged with its audience: `toViewer` is
`socket.emit` (the originating/connecting viewer only), `broadcast` is
`io.emit` (all connected viewers), `toAdminRoom` is
`io.to('admin-room').emit`. -/
inductive Event where
  | toViewer (name : String) (payload : EvPayload)
  | broadcast (name : String) (payload : EvPayload)
  | toAdminRoom (name : String) (payload : EvPayload)
deriving DecidableEq, Repr

/-- The awaited store operations of the success path of
`bubble:create`, in program order. -/
inductive SideOp where
  | setBubble
  | armCooldown
  | pushHistory
  | trimHistory
  | incrTotal
  | incrToday
  | expireToday
deriving DecidableEq, Repr

/-- Failure oracle under which no store operation throws. -/
def noFail : SideOp → Bool := fun _ => false

/-- Failure oracle under which exactly the named operation throws
(`StorageUnavailable` at that call). -/
def failOnly (o : SideOp) : SideOp → Bool := fun p => p == o

/-- Event emitted by the handler's catch-all (line 184). -/
def genericError : Event := .toViewer "bubble:error" (.msg "Something went wrong.")

/-- Model of `lTrim(key, -n, -1)`: keep the most recent `n` entries. -/
def lastN (n : ℕ) (l : List RVal) : List RVal := l.drop (l.length - n)

/-- Candidate submission payload as the handler reads it: the five
properties of the `bubble:create` data object, each an arbitrary JS
value (absent property = `undefined`). -/
structure SubmitData where
  name : JSVal
  text : JSVal
  x : JSVal
  y : JSVal
  type : JSVal
deriving DecidableEq, Repr

/-- `BUBBLE_TTL` (line 22), seconds. -/
def BUBBLE_TTL : ℕ := 300

/-- `COOLDOWN_TTL` (line 23), seconds. -/
def COOLDOWN_TTL : ℕ := 300

/-- Line 132 guard: `!data.name || !data.text || data.x == null ||
data.y == null` (the leading `!data` case corresponds to every field
reading as `undefined`). -/
def missingCheck (d : SubmitData) : Bool :=
  !(truthy d.name) || !(truthy d.text) || isNullish d.x || isNullish d.y

/-- Line 147 guard: `lat < -90 || lat > 90 || lng < -180 || lng > 180`
on the `Number(...)`-coerced coordinates (NaN passes: every comparison
with NaN is false). -/
def coordInvalid (lat lng : JSNum) : Bool :=
  jsLtNum lat (-90) || jsGtNum lat 90 || jsLtNum lng (-180) || jsGtNum lng 180

/-- Bubble construction of lines 152-160: id from socket identity and
timestamp, name truncated to 20 then trimmed, text truncated to 280
then trimmed, coerced coordinates, `type` coerced to `speech` unless
strictly equal to `'thought'`. -/
def mkBubble (socketId : String) (now : ℕ) (d : SubmitData) : Bubble :=
  { id := socketId ++ "-" ++ toString now
    name := substrTrim 20 (jsToString d.name)
    text := substrTrim 280 (jsToString d.text)
    x := toNumber d.x
    y := toNumber d.y
    type := if d.type = JSVal.vStr "thought" then "thought" else "speech"
    createdAt := now }

/-- The `bubble:create` socket handler (lines 130-186).  `fail` is the
failure oracle for the awaited store operations of the success path: a
`true` operation throws there, control jumps to the catch block (line
182), which emits the generic error to the submitter; operations before
the throwing one stay applied. -/
def bubbleCreate (fail : SideOp → Bool) (st : ServerState) (now : ℕ)
    (socketId sourceId : String) (d : SubmitData) : ServerState × List Event :=
  if missingCheck d then
    (st, [.toViewer "bubble:error" (.msg "Missing fields.")])
  else
    match getLive st.store ("cooldown:" ++ sourceId) now with
    | some e => (st, [.toViewer "bubble:cooldown" (.cooldownSecs ((e.expiresAt : ℤ) - now))])
    | none =>
      if coordInvalid (toNumber d.x) (toNumber d.y) then
        (st, [.toViewer "bubble:error" (.msg "Invalid coordinates.")])
      else
        let b := mkBubble socketId now d
        if fail .setBubble then (st, [genericError]) else
        let st1 := { st with store := setEx st.store ("bubble:" ++ b.id) BUBBLE_TTL (.bubbleJson b) now }
        if fail .armCooldown then (st1, [genericError]) else
        let st2 := { st1 with store := setEx st1.store ("cooldown:" ++ sourceId) COOLDOWN_TTL (.str "1") now }
        if fail .pushHistory then (st2, [genericError]) else
        let st3 := { st2 with history := st2.history ++ [.bubbleJson b] }
        if fail .trimHistory then (st3, [genericError]) else
        let st4 := { st3 with history := lastN 10000 st3.history }
        if fail .incrTotal then (st4, [genericError]) else
        let st5 := { st4 with totalMessages := st4.totalMessages + 1 }
        if fail .incrToday then (st5, [genericError]) else
        let st6 := { st5 with todayCount := st5.todayCount + 1 }
        if fail .expireToday then (st6, [genericError]) else
        (st6, [.broadcast "bubble:new" (.bubble b ((BUBBLE_TTL : ℤ) * 1000)),
               .toAdminRoom "admin:newMessage" (.bubble b ((BUBBLE_TTL : ℤ) * 1000))])

/-- Rejection taxonomy of the validation phase. -/
inductive Rejection where
  | missingFields
  | onCooldown (remainingSeconds : ℤ)
  | invalidCoordinates
deriving DecidableEq, Repr

/-- Modelled from the spec (amended): the fail-fast validation order,
first failure wins — (1) `name` and `text` truthy and `x`, `y`
non-nullish, else `MissingFields`; (2) no live cooldown marker for the
source, else `OnCooldown` with the marker's remaining seconds; (3)
coerced coordinates pass the geographic range check, else
`InvalidCoordinates`.  The handler is proved to refine this. -/
def validateSpec (st : ServerState) (now : ℕ) (sourceId : String) (d : SubmitData) :
    Option Rejection :=
  if missingCheck d then some .missingFields
  else
    match getLive st.store ("cooldown:" ++ sourceId) now with
    | some e => some (.onCooldown ((e.expiresAt : ℤ) - now))
    | none =>
      if coordInvalid (toNumber d.x) (toNumber d.y) then some .invalidCoordinates
      else none

/-- The single event the handler emits back to the originating viewer
for each rejection. -/
def rejectionEvent : Rejection → Event
  | .missingFields => .toViewer "bubble:error" (.msg "Missing fields.")
  | .onCooldown r => .toViewer "bubble:cooldown" (.cooldownSecs r)
  | .invalidCoordinates => .toViewer "bubble:error" (.msg "Invalid coordinates.")

/-- State after a fully successful submission: bubble stored with
`BUBBLE_TTL`, cooldown armed with `COOLDOWN_TTL`, history appended then
trimmed to 10000, both counters incremented. -/
def acceptedState (st : ServerState) (now : ℕ) (socketId sourceId : String)
    (d : SubmitData) : ServerState :=
  let b := mkBubble socketId now d
  { store := setEx (setEx st.store ("bubble:" ++ b.id) BUBBLE_TTL (.bubbleJson b) now)
      ("cooldown:" ++ sourceId) COOLDOWN_TTL (.str "1") now
    history := lastN 10000 (st.history ++ [.bubbleJson b])
    totalMessages := st.totalMessages + 1
    todayCount := st.todayCount + 1 }

/-- Events of a fully successful submission: broadcast to every viewer
and mirror to the admin room, each carrying `remainingMs =
BUBBLE_TTL * 1000`. -/
def acceptedEvents (socketId : String) (now : ℕ) (d : SubmitData) : List Event :=
  [.broadcast "bubble:new" (.bubble (mkBubble socketId now d) ((BUBBLE_TTL : ℤ) * 1000)),
   .toAdminRoom "admin:newMessage" (.bubble (mkBubble socketId now d) ((BUBBLE_TTL : ℤ) * 1000))]

/-- The `bubble:existing` event sent to a newly connected viewer for one
live bubble, with `remainingMs` recomputed from the store's TTL at read
time (lines 110-113). -/
def replayEvent (e : Entry) (b : Bubble) (now : ℕ) : Event :=
  .toViewer "bubble:existing" (.bubble b (((e.expiresAt : ℤ) - now) * 1000))

/-- The replay loop of the connection handler (lines 106-115): for each
enumerated key, read it; a key that has expired reads as absent and is
skipped; a value that fails to parse throws `JSON.parse`, and the outer
catch (line 116) ends the whole loop. -/
def replayLoop (st : ServerState) (now : ℕ) : List String → List Event
  | [] => []
  | k :: ks =>
    match getLive st.store k now with
    | none => replayLoop st now ks
    | some e =>
      match parseBubble e.val with
      | none => []
      | some b => replayEvent e b now :: replayLoop st now ks

/-- Replay on a new viewer connection: enumerate the live `bubble:` keys
at `tEnum`, then read each at `tRead` (the two reads may be separated by
expiry). -/
def replayOnConnect (st : ServerState) (tEnum tRead : ℕ) : List Event :=
  replayLoop st tRead (liveKeysMatching st.store "bubble:" tEnum)

/-- Expected replay outcome for one enumerated key: absent key gives no
event, a live parseable value gives its `bubble:existing` event. -/
def replayEventFor (st : ServerState) (now : ℕ) (k : String) : Option Event :=
  (getLive st.store k now).bind fun e => (parseBubble e.val).map fun b => replayEvent e b now

/-- The `/admin/api/history` read (lines 42-45): parse each stored
entry, dropping entries that fail to parse. -/
def historyRead (st : ServerState) : List Bubble :=
  st.history.filterMap parseBubble

/-- Heatmap projection of one history record (line 78). -/
structure HeatPoint where
  lat : JSNum
  lng : JSNum
  name : String
  time : ℕ
deriving DecidableEq, Repr

/-- The `/admin/api/heatmap` read (lines 74-80): parse each stored
entry and project it, dropping entries that fail to parse. -/
def heatmapRead (st : ServerState) : List HeatPoint :=
  st.history.filterMap (fun v => (parseBubble v).map (fun p => ⟨p.x, p.y, p.name, p.createdAt⟩))

/-- One template of the static seed corpus (lines 210-240). -/
structure SeedMsg where
  name : String
  text : String
  x : ℚ
  y : ℚ
  type : String
deriving DecidableEq, Repr

/-- The static seed corpus `seedData` of `src/server/index.js`. -/
def seedData : List SeedMsg :=
  [⟨"Flaneur", "The view from Sacre-Coeur at sunset is unbeatable", 48.8867, 2.3431, "speech"⟩,
   ⟨"Amelie", "Best croissant in Paris? The tiny bakery on Rue des Martyrs. You are welcome.", 48.8782, 2.3387, "speech"⟩,
   ⟨"Noctis", "I think the Seine is more beautiful at 3am than at noon...", 48.8566, 2.3522, "thought"⟩,
   ⟨"Voltaire", "Just saw someone propose on Pont des Arts. She said yes!", 48.8583, 2.3374, "speech"⟩,
   ⟨"Lumiere", "If you skip the Louvre and go to Musee d Orsay instead, you will thank me later", 48.8600, 2.3266, "speech"⟩,
   ⟨"Reve", "What if Paris was always meant to be a feeling, not a place?", 48.8530, 2.3499, "thought"⟩,
   ⟨"Minuit", "The jazz bar hidden behind the red door in Le Marais... unforgettable night", 48.8598, 2.3624, "speech"⟩,
   ⟨"Ciel", "I come to this bench every Tuesday. Nobody knows. It is my secret spot.", 48.8462, 2.3372, "thought"⟩,
   ⟨"Wanderer", "The street art in Kreuzberg keeps getting better every week", 52.4988, 13.4200, "speech"⟩,
   ⟨"Nacht", "Does anyone else feel like Berlin never truly sleeps?", 52.5200, 13.4050, "thought"⟩,
   ⟨"Spree", "Curry 36 is overrated. Fight me. The real currywurst is at Konnopke.", 52.5390, 13.4133, "speech"⟩,
   ⟨"Klang", "Heard the most incredible busker at Warschauer Strasse today", 52.5057, 13.4490, "speech"⟩,
   ⟨"Mauer", "Walking past the East Side Gallery still gives me chills every single time", 52.5053, 13.4396, "thought"⟩,
   ⟨"Fuchs", "Secret tip: the rooftop bar on Torstrasse has no sign but the best view of the TV tower", 52.5290, 13.3958, "speech"⟩,
   ⟨"Nebel", "I moved here 5 years ago and still discover new neighborhoods", 52.4870, 13.4250, "thought"⟩,
   ⟨"Baer", "Free piano in Mauerpark on Sundays. Just show up and play. Pure magic.", 52.5437, 13.4019, "speech"⟩,
   ⟨"Ombra", "The aperitivo at Navigli on Friday evening is the best therapy", 45.4530, 9.1770, "speech"⟩,
   ⟨"Nebbia", "I think Milan is the most underrated city in Europe. Seriously.", 45.4642, 9.1900, "thought"⟩,
   ⟨"Duomo", "Climbed to the rooftop of the Duomo today. Why did I wait 10 years to do this?", 45.4641, 9.1919, "speech"⟩,
   ⟨"Freccia", "The best gelato in Milano is NOT where tourists go. Try Via Savona.", 45.4510, 9.1660, "speech"⟩,
   ⟨"Silenzio", "Sometimes I sit in the Biblioteca Ambrosiana just to think in silence", 45.4634, 9.1870, "thought"⟩,
   ⟨"Sole", "Spring in Parco Sempione is when Milan becomes a different city entirely", 45.4726, 9.1788, "speech"⟩,
   ⟨"Eco", "The vintage market in Porta Genova every last Sunday... hidden gem", 45.4490, 9.1700, "speech"⟩,
   ⟨"Luna", "I left my heart somewhere between Brera and Porta Nuova", 45.4730, 9.1880, "thought"⟩]

/-- Resolved randomness for one planted seed bubble: the sampled
template, the positional jitter (`(Math.random()-0.5)*0.005` each), the
randomized TTL (`120 + floor(Math.random()*180)`), and the random id
suffix. -/
structure SeedChoice where
  msg : SeedMsg
  jLat : ℚ
  jLng : ℚ
  ttl : ℕ
  idSuffix : String
deriving DecidableEq, Repr

/-- The bubble `plantBatch` builds for one choice (lines 274-282). -/
def seedBubble (now : ℕ) (c : SeedChoice) : Bubble :=
  { id := "seed-" ++ toString now ++ "-" ++ c.idSuffix
    name := c.msg.name
    text := c.msg.text
    x := .num (c.msg.x + c.jLat)
    y := .num (c.msg.y + c.jLng)
    type := c.msg.type
    createdAt := now }

/-- Store key of one planted seed bubble. -/
def seedKey (now : ℕ) (c : SeedChoice) : String := "bubble:" ++ (seedBubble now c).id

/-- `plantBatch` (lines 264-293): for each sampled template, write the
jittered bubble with its randomized TTL directly to the store and
broadcast it — no history append, no counter increment, no cooldown
interaction.  The sampling (`8 + floor(Math.random()*5)` templates from
the shuffled corpus) arrives resolved as `choices`. -/
def plantBatch (st : ServerState) (now : ℕ) : List SeedChoice → ServerState × List Event
  | [] => (st, [])
  | c :: cs =>
    let b := seedBubble now c
    let st1 := { st with store := setEx st.store ("bubble:" ++ b.id) c.ttl (.bubbleJson b) now }
    let rec0 := plantBatch st1 now cs
    (rec0.1, .broadcast "bubble:new" (.bubble b ((c.ttl : ℤ) * 1000)) :: rec0.2)

/-- Number of live `bubble:` keys (`redis.keys('bubble:*').length`). -/
def liveBubbleCount (st : ServerState) (now : ℕ) : ℕ :=
  (liveKeysMatching st.store "bubble:" now).length

/-- Startup branch of `seedMessages` (lines 245-251): skip when 8 or
more bubbles are live, otherwise plant a batch. -/
def seedInitial (st : ServerState) (now : ℕ) (choices : List SeedChoice) :
    ServerState × List Event :=
  if 8 ≤ liveBubbleCount st now then (st, []) else plantBatch st now choices

/-- Periodic branch of `seedMessages` (lines 253-258, every 2 minutes):
plant a batch only when fewer than 6 bubbles are live. -/
def seedPeriodic (st : ServerState) (now : ℕ) (choices : List SeedChoice) :
    ServerState × List Event :=
  if liveBubbleCount st now < 6 then plantBatch st now choices else (st, [])

/-- Control point of one in-flight `bubble:create` invocation between
its awaited store calls.  The handler is `async`: the code between two
`await`s runs atomically, but other invocations may interleave at every
`await`.  `start` is about to run lines 130-138 (missing-fields guard,
then the cooldown read); `validate cd` holds the value the cooldown
read returned and is about to run lines 139-162 (cooldown/coordinate
rejection, else bubble construction and the bubble write); `arm b` is
about to run line 163 (the cooldown arm); `bookkeep b` is about to run
lines 166-179 (history, counters, then the emits — these five awaits
are collapsed into one atomic step, which only coarsens the
interleaving). -/
inductive TaskPC where
  | start
  | validate (cd : Option Entry)
  | arm (b : Bubble)
  | bookkeep (b : Bubble)
  | done
deriving DecidableEq, Repr

/-- One in-flight `bubble:create` invocation: its control point, the
socket identity, the rate-limit source identifier, and the payload. -/
structure TaskState where
  pc : TaskPC
  socketId : String
  sourceId : String
  payload : SubmitData
deriving DecidableEq, Repr

/-- One atomic step of an in-flight invocation, executed at time `now`:
the pure code up to the next `await`, plus that awaited store call.
Note that the cooldown value tested at line 139 is the one read at line
138 — a value captured in an earlier step — so a marker armed by
another invocation in between is not seen.  (On the cooldown-rejection
path the extra `ttl` read of line 140 is folded into the same step.) -/
def stepTask (st : ServerState) (now : ℕ) (tk : TaskState) :
    ServerState × TaskState × List Event :=
  match tk.pc with
  | .start =>
    if missingCheck tk.payload then
      (st, { tk with pc := .done }, [.toViewer "bubble:error" (.msg "Missing fields.")])
    else
      (st, { tk with pc := .validate (getLive st.store ("cooldown:" ++ tk.sourceId) now) }, [])
  | .validate cd =>
    match cd with
    | some e =>
      (st, { tk with pc := .done },
       [.toViewer "bubble:cooldown" (.cooldownSecs ((e.expiresAt : ℤ) - now))])
    | none =>
      if coordInvalid (toNumber tk.payload.x) (toNumber tk.payload.y) then
        (st, { tk with pc := .done }, [.toViewer "bubble:error" (.msg "Invalid coordinates.")])
      else
        let b := mkBubble tk.socketId now tk.payload
        ({ st with store := setEx st.store ("bubble:" ++ b.id) BUBBLE_TTL (.bubbleJson b) now },
         { tk with pc := .arm b }, [])
  | .arm b =>
    ({ st with store := setEx st.store ("cooldown:" ++ tk.sourceId) COOLDOWN_TTL (.str "1") now },
     { tk with pc := .bookkeep b }, [])
  | .bookkeep b =>
    ({ st with history := lastN 10000 (st.history ++ [.bubbleJson b]),
               totalMessages := st.totalMessages + 1,
               todayCount := st.todayCount + 1 },
     { tk with pc := .done },
     [.broadcast "bubble:new" (.bubble b ((BUBBLE_TTL : ℤ) * 1000)),
      .toAdminRoom "admin:newMessage" (.bubble b ((BUBBLE_TTL : ℤ) * 1000))])
  | .done => (st, tk, [])

/-- Interleaved execution of several in-flight invocations: the
schedule is a list of `(time, task index)` pairs, each running one
atomic step of the named task over the shared state.  A step of a
finished (`done`) task is a no-op. -/
def runSched : ServerState → List TaskState → List (ℕ × ℕ) →
    ServerState × List TaskState × List Event
  | st, tasks, [] => (st, tasks, [])
  | st, tasks, (now, i) :: rest =>
    match tasks.get? i with
    | none => runSched st tasks rest
    | some tk =>
      let r := stepTask st now tk
      let out := runSched r.1 (tasks.set i r.2.1) rest
      (out.1, out.2.1, r.2.2 ++ out.2.2)

/-- Number of `io.emit` broadcasts in an event list. -/
def countBroadcasts (evs : List Event) : ℕ :=
  evs.countP (fun ev => match ev with | .broadcast _ _ => true | _ => false)

/-- One inbound `bubble:create` request: arrival time (seconds), the
socket identity, the rate-limit source identifier derived from the
forwarded address, and the payload. -/
structure Req where
  time : ℕ
  socketId : String
  sourceId : String
  payload : SubmitData
deriving DecidableEq, Repr

/-- A submission was accepted exactly when the handler's first emitted
event is the `bubble:new` broadcast. -/
def isAcceptedOut (evs : List Event) : Bool :=
  match evs with
  | .broadcast _ _ :: _ => true
  | _ => false

/-- Run a sequence of `bubble:create` requests through the handler
(no store failures), threading the state.  This is the SERIALIZED
execution model: each invocation runs to completion before the next
begins (equivalently, a `runSched` schedule whose steps never
interleave two tasks — see `runSched_single_task`); it does not cover
concurrent interleavings of the handler's awaits. -/
def runTrace (st : ServerState) : List Req → ServerState
  | [] => st
  | r :: rs => runTrace (bubbleCreate noFail st r.time r.socketId r.sourceId r.payload).1 rs

/-- Creation times of the accepted submissions of a given source along a
serialized request trace (same execution model as `runTrace`). -/
def acceptedTimes (st : ServerState) (src : String) : List Req → List ℕ
  | [] => []
  | r :: rs =>
    let out := bubbleCreate noFail st r.time r.socketId r.sourceId r.payload
    if r.sourceId == src && isAcceptedOut out.2 then
      r.time :: acceptedTimes out.1 src rs
    else
      acceptedTimes out.1 src rs

/-- Geographic-bounds satisfaction of a bubble's stored coordinates, as
§3 of the design states it (NaN lies in no interval). -/
def inGeoBounds (x y : JSNum) : Bool :=
  match x, y with
  | .num a, .num b => decide (-90 ≤ a) && decide (a ≤ 90) && decide (-180 ≤ b) && decide (b ≤ 180)
  | _, _ => false

/-- Missing-fields guard of the minimal canvas variant
(`src/unnamed/part_001`, line 47): `!data.x || !data.y` — truthiness on
the coordinates too. -/
def missingCheckV1 (d : SubmitData) : Bool :=
  !(truthy d.name) || !(truthy d.text) || !(truthy d.x) || !(truthy d.y)

/-- Canvas-mode x coordinate of the minimal variant (line 63):
`Math.max(0, Math.min(4000, Number(data.x)))`. -/
def canvasX (v : JSVal) : JSNum := jsMax 0 (jsMin 4000 (toNumber v))

/-- Canvas-mode y coordinate of the minimal variant (line 64):
`Math.max(0, Math.min(3000, Number(data.y)))`. -/
def canvasY (v : JSVal) : JSNum := jsMax 0 (jsMin 3000 (toNumber v))

/-- Whether an event list contains any `io.emit` broadcast. -/
def containsBroadcast (evs : List Event) : Bool :=
  evs.any (fun ev => match ev with | .broadcast _ _ => true | _ => false)

/-- Fresh server state (empty store, empty history, zeroed counters). -/
def emptyState : ServerState := ⟨[], [], 0, 0⟩

/-- A live stored bubble entry used in concrete scenarios. -/
def entryFx (i : String) : Entry :=
  ⟨"bubble:" ++ i, .bubbleJson ⟨i, "nm", "tx", .num 1, .num 2, "speech", 0⟩, 10⟩

/-- A state with exactly six live bubbles at time 0. -/
def st6 : ServerState :=
  ⟨[entryFx "1", entryFx "2", entryFx "3", entryFx "4", entryFx "5", entryFx "6"], [], 0, 0⟩

/-- A resolved seed choice with a fixed template and the given id
suffix (zero jitter, TTL 180). -/
def seedChoiceSfx (sfx : String) : SeedChoice :=
  ⟨⟨"Nacht", "Does anyone else feel like Berlin never truly sleeps?", 52.5200, 13.4050, "thought"⟩,
   0, 0, 180, sfx⟩

/-- A resolved batch of eight seed choices with distinct ids. -/
def batch8 : List SeedChoice :=
  [seedChoiceSfx "a", seedChoiceSfx "b", seedChoiceSfx "c", seedChoiceSfx "d",
   seedChoiceSfx "e", seedChoiceSfx "f", seedChoiceSfx "g", seedChoiceSfx "h"]

/-- A state whose store holds one corrupt `bubble:` value followed by a
well-formed live bubble. -/
def stCorrupt : ServerState :=
  ⟨[⟨"bubble:a", .str "corrupt", 100⟩,
    ⟨"bubble:b", .bubbleJson ⟨"b", "nm", "tx", .num 1, .num 2, "speech", 0⟩, 100⟩], [], 0, 0⟩

/-- A state with a single live stored bubble. -/
def stOneBubble : ServerState :=
  ⟨[⟨"bubble:w", .bubbleJson ⟨"w", "nm", "tx", .num 3, .num 4, "thought", 0⟩, 7⟩], [], 0, 0⟩

/-- Two fresh `bubble:create` invocations from the same source
(`x-forwarded-for` value `ip`) on different sockets, both with valid
payloads. -/
def raceTasks : List TaskState :=
  [⟨.start, "sA", "ip", ⟨.vStr "al", .vStr "hi", .vNum 1, .vNum 2, .vNull⟩⟩,
   ⟨.start, "sB", "ip", ⟨.vStr "bo", .vStr "yo", .vNum 3, .vNum 4, .vNull⟩⟩]

/-- Interleaved schedule at time 0: both invocations pass the cooldown
read of line 138 before either reaches the arm of line 163. -/
def raceSched : List (ℕ × ℕ) :=
  [(0, 0), (0, 1), (0, 0), (0, 1), (0, 0), (0, 1), (0, 0), (0, 1)]

/-- The interleaved run of the two same-source invocations. -/
def raceRun : ServerState × List TaskState × List Event :=
  runSched emptyState raceTasks raceSched

/-- Serialized schedule at time 0: the first invocation runs to
completion before the second begins. -/
def serialSched : List (ℕ × ℕ) :=
  [(0, 0), (0, 0), (0, 0), (0, 0), (0, 1), (0, 1), (0, 1), (0, 1)]

/-- The serialized run of the same two invocations. -/
def serialRun : ServerState × List TaskState × List Event :=
  runSched emptyState raceTasks serialSched

/-- Appending strings appends their character data. -/
theorem strData_append (s t : String) : (s ++ t).data = s.data ++ t.data := by
  cases s; cases t; rfl

/-- A string is an initial segment of itself extended. -/
theorem listStarts_append (l m : List Char) : listStarts l (l ++ m) = true := by
  induction l with
  | nil => rfl
  | cons a l ih => simp [listStarts, ih]

/-- Key-prefix test succeeds on keys formed by appending to the
prefix. -/
theorem strStarts_append (p s : String) : strStarts p (p ++ s) = true := by
  unfold strStarts
  rw [strData_append]
  exact listStarts_append _ _

/-- Appending to a fixed string is injective. -/
theorem strAppend_inj {s t t' : String} (h : s ++ t = s ++ t') : t = t' := by
  have h2 : (s ++ t).data = (s ++ t').data := congrArg String.data h
  rw [strData_append, strData_append] at h2
  exact String.ext (List.append_cancel_left h2)

/-- A `bubble:`-family key is never a `cooldown:`-family key. -/
theorem bubble_key_ne_cooldown_key (x y : String) :
    ("bubble:" ++ x) ≠ ("cooldown:" ++ y) := by
  intro h
  have h2 : ("bubble:" ++ x).data = ("cooldown:" ++ y).data := congrArg String.data h
  rw [strData_append, strData_append] at h2
  have h3 := congrArg List.head? h2
  simp [show ("bubble:").data = 'b' :: "ubble:".data from rfl,
        show ("cooldown:").data = 'c' :: "ooldown:".data from rfl] at h3

/-- Searching a filtered list is the same as searching the original when
the filter only removes elements the search ignores. -/
theorem find?_filter_of_imp {α : Type} (p q : α → Bool) :
    ∀ l : List α, (∀ a, p a = true → q a = true) →
      (l.filter q).find? p = l.find? p := by
  intro l
  induction l with
  | nil => intro _; rfl
  | cons a l ih =>
    intro h
    by_cases hq : q a = true
    · rw [List.filter_cons_of_pos hq]
      by_cases hp : p a = true
      · rw [List.find?_cons_of_pos _ hp, List.find?_cons_of_pos _ hp]
      · rw [List.find?_cons_of_neg _ hp, List.find?_cons_of_neg _ hp]
        exact ih h
    · rw [List.filter_cons_of_neg hq]
      rw [List.find?_cons_of_neg _ (by intro hc; exact hq (h a hc))]
      exact ih h

/-- Writing a key makes it the entry `lookupKey` sees. -/
theorem lookupKey_setEx_self (store : List Entry) (k : String) (ttl : ℕ) (v : RVal) (now : ℕ) :
    lookupKey (setEx store k ttl v now) k = some ⟨k, v, now + ttl⟩ := by
  unfold lookupKey setEx
  rw [List.find?_cons_of_pos _ (by simp)]

/-- Writing one key leaves `lookupKey` of any other key unchanged. -/
theorem lookupKey_setEx_ne (store : List Entry) (k k' : String) (ttl : ℕ) (v : RVal) (now : ℕ)
    (h : k ≠ k') :
    lookupKey (setEx store k' ttl v now) k = lookupKey store k := by
  unfold lookupKey setEx
  rw [List.find?_cons_of_neg _ (by simp [Ne.symm h])]
  exact find?_filter_of_imp _ _ store (by
    intro e he
    simp only [beq_iff_eq] at he
    simp [he, h])

/-- What a successful `redis.get` tells us: the entry is stored, live,
and carries the requested key. -/
theorem getLive_some_props {store : List Entry} {k : String} {now : ℕ} {e : Entry}
    (h : getLive store k now = some e) :
    e ∈ store ∧ e.live now = true ∧ e.key = k := by
  unfold getLive at h
  have h1 := List.mem_of_find?_eq_some h
  have h2 := List.find?_some h
  have h3 := List.mem_filter.mp h1
  refine ⟨h3.1, h3.2, ?_⟩
  simpa using h2

/-- A stored live entry makes `redis.get` of its key succeed. -/
theorem getLive_isSome_of_live_mem {store : List Entry} {k : String} {now : ℕ} {e : Entry}
    (he : e ∈ store) (hl : e.live now = true) (hk : e.key = k) :
    (getLive store k now).isSome = true := by
  unfold getLive
  rw [List.find?_isSome]
  exact ⟨e, List.mem_filter.mpr ⟨he, hl⟩, by simp [hk]⟩

/-- If `redis.get` reports a key absent, any bookkeeping entry for that
key has already expired. -/
theorem getLive_none_expired {store : List Entry} {k : String} {now : ℕ} {e : Entry}
    (hg : getLive store k now = none) (hl : lookupKey store k = some e) :
    e.expiresAt ≤ now := by
  by_contra hc
  push_neg at hc
  have he := List.mem_of_find?_eq_some hl
  have hk := List.find?_some hl
  have hlive : e.live now = true := by simp [Entry.live, hc]
  have := getLive_isSome_of_live_mem he hlive (by simpa using hk)
  rw [hg] at this
  simp at this

/-- Membership in the live-key enumeration, unfolded. -/
theorem mem_liveKeysMatching {store : List Entry} {p : String} {now : ℕ} {k : String} :
    k ∈ liveKeysMatching store p now ↔
      ∃ e, e ∈ store ∧ e.live now = true ∧ strStarts p e.key = true ∧ e.key = k := by
  unfold liveKeysMatching
  simp only [List.mem_map, List.mem_filter]
  constructor
  · rintro ⟨e, ⟨⟨he, hl⟩, hs⟩, rfl⟩
    exact ⟨e, he, hl, hs, rfl⟩
  · rintro ⟨e, he, hl, hs, rfl⟩
    exact ⟨e, ⟨⟨he, hl⟩, hs⟩, rfl⟩

/-- Line 132: a failed required-fields guard rejects immediately, for
any failure oracle. -/
theorem bubbleCreate_missing (fail : SideOp → Bool) (st : ServerState) (now : ℕ)
    (sock src : String) (d : SubmitData) (h : missingCheck d = true) :
    bubbleCreate fail st now sock src d
      = (st, [.toViewer "bubble:error" (.msg "Missing fields.")]) := by
  unfold bubbleCreate
  simp [h]

/-- Lines 138-143: a live cooldown marker rejects with its remaining
seconds, for any failure oracle. -/
theorem bubbleCreate_cooldown (fail : SideOp → Bool) (st : ServerState) (now : ℕ)
    (sock src : String) (d : SubmitData) (e : Entry) (h : missingCheck d = false)
    (hc : getLive st.store ("cooldown:" ++ src) now = some e) :
    bubbleCreate fail st now sock src d
      = (st, [.toViewer "bubble:cooldown" (.cooldownSecs ((e.expiresAt : ℤ) - now))]) := by
  unfold bubbleCreate
  simp [h, hc]

/-- Lines 145-150: an out-of-range coordinate rejects, for any failure
oracle. -/
theorem bubbleCreate_invalid (fail : SideOp → Bool) (st : ServerState) (now : ℕ)
    (sock src : String) (d : SubmitData) (h : missingCheck d = false)
    (hc : getLive st.store ("cooldown:" ++ src) now = none)
    (hv : coordInvalid (toNumber d.x) (toNumber d.y) = true) :
    bubbleCreate fail st now sock src d
      = (st, [.toViewer "bubble:error" (.msg "Invalid coordinates.")]) := by
  unfold bubbleCreate
  simp [h, hc, hv]

/-- Lines 152-181: with every store call succeeding, a valid submission
produces the fully updated state and the broadcast events. -/
theorem bubbleCreate_accept (st : ServerState) (now : ℕ)
    (sock src : String) (d : SubmitData) (h : missingCheck d = false)
    (hc : getLive st.store ("cooldown:" ++ src) now = none)
    (hv : coordInvalid (toNumber d.x) (toNumber d.y) = false) :
    bubbleCreate noFail st now sock src d
      = (acceptedState st now sock src d, acceptedEvents sock now d) := by
  unfold bubbleCreate acceptedState acceptedEvents noFail
  simp [h, hc, hv]

/-- Unfolding of a passing validation phase. -/
theorem validateSpec_none_iff (st : ServerState) (now : ℕ) (src : String) (d : SubmitData) :
    validateSpec st now src d = none ↔
      missingCheck d = false
      ∧ getLive st.store ("cooldown:" ++ src) now = none
      ∧ coordInvalid (toNumber d.x) (toNumber d.y) = false := by
  unfold validateSpec
  constructor
  · intro h
    by_cases hm : missingCheck d = true
    · simp [hm] at h
    · rw [Bool.not_eq_true] at hm
      cases hcd : getLive st.store ("cooldown:" ++ src) now with
      | some e => simp [hm, hcd] at h
      | none =>
        by_cases hv : coordInvalid (toNumber d.x) (toNumber d.y) = true
        · simp [hm, hcd, hv] at h
        · exact ⟨hm, rfl, by simpa using hv⟩
  · rintro ⟨hm, hcd, hv⟩
    simp [hm, hcd, hv]

/-- Unfolding of a failing validation phase. -/
theorem validateSpec_some (st : ServerState) (now : ℕ) (src : String) (d : SubmitData)
    (r : Rejection) (h : validateSpec st now src d = some r) :
    (missingCheck d = true ∧ r = .missingFields)
    ∨ (missingCheck d = false
        ∧ ∃ e, getLive st.store ("cooldown:" ++ src) now = some e
            ∧ r = .onCooldown ((e.expiresAt : ℤ) - now))
    ∨ (missingCheck d = false
        ∧ getLive st.store ("cooldown:" ++ src) now = none
        ∧ coordInvalid (toNumber d.x) (toNumber d.y) = true
        ∧ r = .invalidCoordinates) := by
  unfold validateSpec at h
  by_cases hm : missingCheck d = true
  · left
    refine ⟨hm, ?_⟩
    simp [hm] at h
    exact h.symm
  · rw [Bool.not_eq_true] at hm
    cases hcd : getLive st.store ("cooldown:" ++ src) now with
    | some e =>
      right; left
      refine ⟨hm, e, rfl, ?_⟩
      simp [hm, hcd] at h
      exact h.symm
    | none =>
      by_cases hv : coordInvalid (toNumber d.x) (toNumber d.y) = true
      · right; right
        refine ⟨hm, rfl, hv, ?_⟩
        simp [hm, hcd, hv] at h
        exact h.symm
      · simp [hm, hcd, hv] at h

/-- The handler refines the validation phase: a failing check yields
exactly that check's rejection event and leaves the state untouched. -/
theorem bubbleCreate_of_validate_some (fail : SideOp → Bool) (st : ServerState) (now : ℕ)
    (sock src : String) (d : SubmitData) (r : Rejection)
    (h : validateSpec st now src d = some r) :
    bubbleCreate fail st now sock src d = (st, [rejectionEvent r]) := by
  rcases validateSpec_some st now src d r h with ⟨hm, rfl⟩ | ⟨hm, e, hcd, rfl⟩ | ⟨hm, hcd, hv, rfl⟩
  · exact bubbleCreate_missing fail st now sock src d hm
  · exact bubbleCreate_cooldown fail st now sock src d e hm hcd
  · exact bubbleCreate_invalid fail st now sock src d hm hcd hv

/-- The handler refines the validation phase: a passing validation
yields the accepted state and events. -/
theorem bubbleCreate_of_validate_none (st : ServerState) (now : ℕ)
    (sock src : String) (d : SubmitData)
    (h : validateSpec st now src d = none) :
    bubbleCreate noFail st now sock src d
      = (acceptedState st now sock src d, acceptedEvents sock now d) := by
  rcases (validateSpec_none_iff st now src d).mp h with ⟨hm, hcd, hv⟩
  exact bubbleCreate_accept st now sock src d hm hcd hv

/-- Every rejection event is addressed to the originating viewer. -/
theorem rejectionEvent_toViewer (r : Rejection) :
    ∃ nm p, rejectionEvent r = Event.toViewer nm p := by
  cases r <;> exact ⟨_, _, rfl⟩

/-- Truncate-then-trim never exceeds the truncation bound. -/
theorem substrTrim_length_le (n : ℕ) (s : String) : (substrTrim n s).length ≤ n := by
  show (trimChars (s.data.take n)).length ≤ n
  unfold trimChars
  calc ((((s.data.take n).dropWhile isWSCh).reverse.dropWhile isWSCh).reverse).length
      = (((s.data.take n).dropWhile isWSCh).reverse.dropWhile isWSCh).length := by
        rw [List.length_reverse]
    _ ≤ ((s.data.take n).dropWhile isWSCh).reverse.length :=
        (List.dropWhile_sublist _).length_le
    _ = ((s.data.take n).dropWhile isWSCh).length := by rw [List.length_reverse]
    _ ≤ (s.data.take n).length := (List.dropWhile_sublist _).length_le
    _ ≤ n := by rw [List.length_take]; omega

/-- The trimmed history keeps at most `n` records. -/
theorem lastN_length_le (n : ℕ) (l : List RVal) : (lastN n l).length ≤ n := by
  unfold lastN
  rw [List.length_drop]
  omega

/-- Below the cap, trimming after an append is the identity. -/
theorem lastN_append_of_lt (n : ℕ) (l : List RVal) (v : RVal) (h : l.length < n) :
    lastN n (l ++ [v]) = l ++ [v] := by
  unfold lastN
  have : (l ++ [v]).length - n = 0 := by simp; omega
  rw [this, List.drop_zero]

/-- Coordinate guard in terms of a finite x coordinate. -/
theorem coordInvalid_false_x {a : ℚ} {y : JSNum}
    (h : coordInvalid (.num a) y = false) : -90 ≤ a ∧ a ≤ 90 := by
  unfold coordInvalid jsLtNum jsGtNum at h
  simp only [Bool.or_eq_false_iff, decide_eq_false_iff_not, not_lt] at h
  exact ⟨h.1.1.1, h.1.1.2⟩

/-- Coordinate guard in terms of a finite y coordinate. -/
theorem coordInvalid_false_y {x : JSNum} {b : ℚ}
    (h : coordInvalid x (.num b) = false) : -180 ≤ b ∧ b ≤ 180 := by
  unfold coordInvalid jsLtNum jsGtNum at h
  cases x with
  | nan =>
    simp only [Bool.or_eq_false_iff, decide_eq_false_iff_not, not_lt] at h
    exact ⟨h.1.2, h.2⟩
  | num a =>
    simp only [Bool.or_eq_false_iff, decide_eq_false_iff_not, not_lt] at h
    exact ⟨h.1.2, h.2⟩

/-- When every readable enumerated key parses, the replay loop never
aborts: it emits exactly one event per key still live at read time and
skips the rest. -/
theorem replayLoop_eq_filterMap (st : ServerState) (tR : ℕ) :
    ∀ ks : List String,
      (∀ k ∈ ks, ∀ e, getLive st.store k tR = some e → (parseBubble e.val).isSome = true) →
      replayLoop st tR ks = ks.filterMap (replayEventFor st tR) := by
  intro ks
  induction ks with
  | nil => intro _; rfl
  | cons k ks ih =>
    intro h
    have htl : ∀ k' ∈ ks, ∀ e, getLive st.store k' tR = some e → (parseBubble e.val).isSome = true :=
      fun k' hk' => h k' (List.mem_cons_of_mem _ hk')
    cases hg : getLive st.store k tR with
    | none =>
      rw [List.filterMap_cons]
      simp only [replayLoop, replayEventFor, hg, Option.none_bind]
      exact ih htl
    | some e =>
      cases hp : parseBubble e.val with
      | none =>
        have := h k (List.mem_cons_self _ _) e hg
        rw [hp] at this
        simp at this
      | some b =>
        rw [List.filterMap_cons]
        simp only [replayLoop, replayEventFor, hg, Option.some_bind, hp, Option.map_some']
        exact congrArg _ (ih htl)

/-- A list mapped through an everywhere-defined partial function keeps
its length. -/
theorem length_filterMap_of_isSome {α β : Type} (f : α → Option β) :
    ∀ l : List α, (∀ a ∈ l, (f a).isSome = true) → (l.filterMap f).length = l.length := by
  intro l
  induction l with
  | nil => intro _; rfl
  | cons a l ih =>
    intro h
    rw [List.filterMap_cons]
    cases hf : f a with
    | none =>
      have := h a (List.mem_cons_self _ _)
      rw [hf] at this
      simp at this
    | some b =>
      simp only [List.length_cons]
      rw [ih (fun a' ha' => h a' (List.mem_cons_of_mem _ ha'))]

/-- Every event the replay loop emits is a private `bubble:existing`
with strictly positive `remainingMs`. -/
theorem replayLoop_shape (st : ServerState) (tR : ℕ) :
    ∀ ks : List String, ∀ ev ∈ replayLoop st tR ks,
      ∃ b rem, ev = Event.toViewer "bubble:existing" (EvPayload.bubble b rem) ∧ 0 < rem := by
  intro ks
  induction ks with
  | nil => intro ev hev; simp [replayLoop] at hev
  | cons k ks ih =>
    intro ev hev
    cases hg : getLive st.store k tR with
    | none =>
      simp only [replayLoop, hg] at hev
      exact ih ev hev
    | some e =>
      cases hp : parseBubble e.val with
      | none => simp [replayLoop, hg, hp] at hev
      | some b =>
        simp only [replayLoop, hg, hp] at hev
        rcases List.mem_cons.mp hev with rfl | hev'
        · refine ⟨b, _, rfl, ?_⟩
          have hlive := (getLive_some_props hg).2.1
          unfold Entry.live at hlive
          have hlt : (tR : ℤ) < e.expiresAt := by
            have := of_decide_eq_true hlive
            exact_mod_cast this
          have : (0 : ℤ) < (e.expiresAt : ℤ) - tR := by omega
          positivity
        · exact ih ev hev'

/-- Planting a batch touches only the TTL keyspace: history and both
counters are untouched. -/
theorem plantBatch_bookkeeping (now : ℕ) :
    ∀ (ch : List SeedChoice) (st : ServerState),
      (plantBatch st now ch).1.history = st.history
      ∧ (plantBatch st now ch).1.totalMessages = st.totalMessages
      ∧ (plantBatch st now ch).1.todayCount = st.todayCount := by
  intro ch
  induction ch with
  | nil => intro st; exact ⟨rfl, rfl, rfl⟩
  | cons c cs ih =>
    intro st
    unfold plantBatch
    exact ih _

/-- A live entry with a matching prefix heads the key enumeration. -/
theorem liveKeysMatching_cons_live (e : Entry) (store : List Entry) (p : String) (now : ℕ)
    (hl : e.live now = true) (hs : strStarts p e.key = true) :
    liveKeysMatching (e :: store) p now = e.key :: liveKeysMatching store p now := by
  unfold liveKeysMatching
  simp [List.filter_cons, hl, hs]

/-- Keys absent from the store are untouched by its filter step. -/
theorem filter_ne_key_eq_self (store : List Entry) (k : String)
    (h : lookupKey store k = none) :
    store.filter (fun e => !(e.key == k)) = store := by
  rw [List.filter_eq_self]
  intro e he
  unfold lookupKey at h
  rw [List.find?_eq_none] at h
  have := h e he
  simpa using this

/-- Planting one fresh, immediately-live seed bubble grows the live
bubble count by exactly one. -/
theorem liveBubbleCount_setEx_fresh (st : ServerState) (now : ℕ) (idp : String)
    (ttl : ℕ) (v : RVal) (hfresh : lookupKey st.store ("bubble:" ++ idp) = none)
    (httl : 1 ≤ ttl) :
    liveBubbleCount ⟨setEx st.store ("bubble:" ++ idp) ttl v now, st.history,
        st.totalMessages, st.todayCount⟩ now
      = liveBubbleCount st now + 1 := by
  unfold liveBubbleCount
  show (liveKeysMatching (setEx st.store ("bubble:" ++ idp) ttl v now) "bubble:" now).length = _
  unfold setEx
  rw [filter_ne_key_eq_self st.store _ hfresh]
  rw [liveKeysMatching_cons_live _ _ _ _ (by unfold Entry.live; simp; omega)
      (strStarts_append _ _)]
  simp [Nat.add_comm]

/-- Planting a batch of fresh, pairwise-distinct, immediately-live seed
bubbles grows the live bubble count by the batch size. -/
theorem plantBatch_liveCount (now : ℕ) :
    ∀ (ch : List SeedChoice) (st : ServerState),
      (∀ c ∈ ch, lookupKey st.store (seedKey now c) = none) →
      (ch.map (seedKey now)).Nodup →
      (∀ c ∈ ch, 1 ≤ c.ttl) →
      liveBubbleCount (plantBatch st now ch).1 now = liveBubbleCount st now + ch.length := by
  intro ch
  induction ch with
  | nil => intro st _ _ _; rfl
  | cons c cs ih =>
    intro st hfresh hnd httl
    have hkey : seedKey now c = "bubble:" ++ (seedBubble now c).id := rfl
    have hstep := liveBubbleCount_setEx_fresh st now (seedBubble now c).id c.ttl
      (.bubbleJson (seedBubble now c)) (hkey ▸ hfresh c (List.mem_cons_self _ _))
      (httl c (List.mem_cons_self _ _))
    have hnd' := hnd
    rw [List.map_cons, List.nodup_cons] at hnd'
    have hfresh' : ∀ c' ∈ cs,
        lookupKey (setEx st.store ("bubble:" ++ (seedBubble now c).id) c.ttl
          (.bubbleJson (seedBubble now c)) now) (seedKey now c') = none := by
      intro c' hc'
      rw [lookupKey_setEx_ne _ _ _ _ _ _ (by
        intro he
        exact hnd'.1 (by
          rw [List.mem_map]
          exact ⟨c', hc', he⟩))]
      exact hfresh c' (List.mem_cons_of_mem _ hc')
    have httl' : ∀ c' ∈ cs, 1 ≤ c'.ttl := fun c' hc' => httl c' (List.mem_cons_of_mem _ hc')
    unfold plantBatch
    have := ih ⟨setEx st.store ("bubble:" ++ (seedBubble now c).id) c.ttl
        (.bubbleJson (seedBubble now c)) now, st.history, st.totalMessages, st.todayCount⟩
      hfresh' hnd'.2 httl'
    simp only [List.length_cons]
    rw [this, hstep]
    omega

/-- Along a gap-300 chain, every later element clears the head's window. -/
theorem chain_sep_all :
    ∀ {l : List ℕ} {c : ℕ},
      List.Chain' (fun a b => a + COOLDOWN_TTL ≤ b) (c :: l) →
      ∀ c' ∈ l, c + COOLDOWN_TTL ≤ c' := by
  intro l
  induction l with
  | nil => intro c _ c' hc'; simp at hc'
  | cons b l ih =>
    intro c h c' hc'
    have hcb := (List.chain'_cons.mp h).1
    rcases List.mem_cons.mp hc' with rfl | hc'
    · exact hcb
    · have := ih (List.chain'_cons.mp h).2 c' hc'
      omega

/-- At any instant, at most one window of a gap-300 chain of creation
times is still open. -/
theorem countP_le_one_of_chain (t : ℕ) :
    ∀ l : List ℕ,
      List.Chain' (fun a b => a + COOLDOWN_TTL ≤ b) l →
      l.countP (fun c => decide (c ≤ t) && decide (t < c + BUBBLE_TTL)) ≤ 1 := by
  intro l
  induction l with
  | nil => intro _; simp
  | cons c l ih =>
    intro h
    rw [List.countP_cons]
    by_cases hp : (decide (c ≤ t) && decide (t < c + BUBBLE_TTL)) = true
    · have hz : l.countP (fun c => decide (c ≤ t) && decide (t < c + BUBBLE_TTL)) = 0 := by
        rw [List.countP_eq_zero]
        intro c' hc'
        have hsep := chain_sep_all h c' hc'
        simp only [Bool.and_eq_true, decide_eq_true_eq] at hp ⊢
        unfold COOLDOWN_TTL at hsep
        unfold BUBBLE_TTL at hp
        intro hcon
        rcases hcon with ⟨h1, _⟩
        unfold BUBBLE_TTL at *
        omega
      rw [hz]
      simp [hp]
    · rw [Bool.not_eq_true] at hp
      rw [hp]
      have := ih h.tail
      simpa using this

/-- Along any request trace, the accepted submissions of one source are
at least `COOLDOWN_TTL` apart: acceptance requires the source's cooldown
marker (armed to `now + COOLDOWN_TTL` on every acceptance) to have
expired, and any marker present at the start bounds the first
acceptance. -/
theorem acceptedTimes_chain (src : String) :
    ∀ (rs : List Req) (st : ServerState),
      List.Chain' (fun a b => a + COOLDOWN_TTL ≤ b) (acceptedTimes st src rs)
      ∧ (∀ e c, lookupKey st.store ("cooldown:" ++ src) = some e →
          (acceptedTimes st src rs).head? = some c → e.expiresAt ≤ c) := by
  intro rs
  induction rs with
  | nil =>
    intro st
    refine ⟨List.chain'_nil, ?_⟩
    intro e c _ hc
    simp [acceptedTimes] at hc
  | cons r rs ih =>
    intro st
    cases hv : validateSpec st r.time r.sourceId r.payload with
    | some rej =>
      have hout := bubbleCreate_of_validate_some noFail st r.time r.socketId r.sourceId
        r.payload rej hv
      have hacc : isAcceptedOut [rejectionEvent rej] = false := by
        rcases rejectionEvent_toViewer rej with ⟨nm, p, hre⟩
        simp [isAcceptedOut, hre]
      have hstep : acceptedTimes st src (r :: rs) = acceptedTimes st src rs := by
        simp only [acceptedTimes, hout, hacc, Bool.and_false]
        simp
      rw [hstep]
      exact ih st
    | none =>
      have hout := bubbleCreate_of_validate_none st r.time r.socketId r.sourceId r.payload hv
      have hacc : isAcceptedOut (acceptedEvents r.socketId r.time r.payload) = true := by
        simp [isAcceptedOut, acceptedEvents]
      by_cases hsrc : r.sourceId = src
      · subst hsrc
        have hstep : acceptedTimes st r.sourceId (r :: rs)
            = r.time :: acceptedTimes
                (acceptedState st r.time r.socketId r.sourceId r.payload) r.sourceId rs := by
          simp only [acceptedTimes, hout, hacc, beq_self_eq_true, Bool.and_self, if_true]
        have hlook : lookupKey
            (acceptedState st r.time r.socketId r.sourceId r.payload).store
            ("cooldown:" ++ r.sourceId)
            = some ⟨"cooldown:" ++ r.sourceId, .str "1", r.time + COOLDOWN_TTL⟩ :=
          lookupKey_setEx_self _ _ _ _ _
        rw [hstep]
        constructor
        · rw [List.chain'_cons']
          refine ⟨?_, (ih _).1⟩
          intro y hy
          rw [Option.mem_def] at hy
          exact (ih (acceptedState st r.time r.socketId r.sourceId r.payload)).2
            ⟨"cooldown:" ++ r.sourceId, .str "1", r.time + COOLDOWN_TTL⟩ y hlook hy
        · intro e c hl hc
          simp only [List.head?_cons, Option.some.injEq] at hc
          have hnone : getLive st.store ("cooldown:" ++ r.sourceId) r.time = none :=
            ((validateSpec_none_iff st r.time r.sourceId r.payload).mp hv).2.1
          have := getLive_none_expired hnone hl
          omega
      · have hbeq : (r.sourceId == src) = false := by simp [hsrc]
        have hstep : acceptedTimes st src (r :: rs)
            = acceptedTimes (acceptedState st r.time r.socketId r.sourceId r.payload) src rs := by
          simp only [acceptedTimes, hout, hbeq, Bool.false_and]
          simp
        have htransfer : lookupKey
            (acceptedState st r.time r.socketId r.sourceId r.payload).store
            ("cooldown:" ++ src) = lookupKey st.store ("cooldown:" ++ src) := by
          show lookupKey (setEx (setEx st.store _ _ _ _) ("cooldown:" ++ r.sourceId) _ _ _) _ = _
          rw [lookupKey_setEx_ne _ _ _ _ _ _ (fun he => hsrc (strAppend_inj he).symm)]
          rw [lookupKey_setEx_ne _ _ _ _ _ _ (fun he => bubble_key_ne_cooldown_key _ _ he.symm)]
        rw [hstep]
        refine ⟨(ih _).1, ?_⟩
        intro e c hl hc
        exact (ih _).2 e c (by rw [htransfer]; exact hl) hc

/-- After a fully successful submission, the bubble entry is in the
store under its `bubble:` key with the full `BUBBLE_TTL`. -/
theorem lookupKey_acceptedState_bubble (st : ServerState) (now : ℕ) (sock src : String)
    (d : SubmitData) :
    lookupKey (acceptedState st now sock src d).store ("bubble:" ++ (mkBubble sock now d).id)
      = some ⟨"bubble:" ++ (mkBubble sock now d).id, .bubbleJson (mkBubble sock now d),
          now + BUBBLE_TTL⟩ := by
  show lookupKey (setEx (setEx _ _ _ _ _) _ _ _ _) _ = _
  rw [lookupKey_setEx_ne _ _ _ _ _ _ (bubble_key_ne_cooldown_key _ _)]
  exact lookupKey_setEx_self _ _ _ _ _

/-- C2, counterexample: a submission whose four fields are all non-null
(`text` is the empty string), with no cooldown marker and in-range
coordinates, is nonetheless rejected with `MissingFields` — under the
claim's reading of check (1) as a null test, no check fails and the
submission should have been accepted. -/
theorem C2_counterexample :
    isNullish (JSVal.vStr "bob") = false
    ∧ isNullish (JSVal.vStr "") = false
    ∧ isNullish (JSVal.vNum 1) = false
    ∧ isNullish (JSVal.vNum 2) = false
    ∧ getLive emptyState.store ("cooldown:" ++ "ip") 0 = none
    ∧ coordInvalid (toNumber (JSVal.vNum 1)) (toNumber (JSVal.vNum 2)) = false
    ∧ (bubbleCreate noFail emptyState 0 "sock" "ip"
        ⟨.vStr "bob", .vStr "", .vNum 1, .vNum 2, .vNull⟩).2
        = [Event.toViewer "bubble:error" (EvPayload.msg "Missing fields.")] := by
  decide

/-- C2 (amended): validation is fail-fast in the fixed order (1)
required fields — `name` and `text` truthy, `x` and `y` non-nullish —
else `MissingFields`; (2) no live cooldown marker, else `OnCooldown`
with its remaining seconds; (3) coerced coordinates in geographic
range, else `InvalidCoordinates`.  The first failing check alone
determines the single event emitted back to the originating viewer
(`validateSpec` is that first-failure computation), and a fully passing
validation yields the accepted state and broadcast events. -/
theorem C2_validation_order (st : ServerState) (now : ℕ) (sock src : String)
    (d : SubmitData) :
    (∀ r, validateSpec st now src d = some r →
        bubbleCreate noFail st now sock src d = (st, [rejectionEvent r]))
    ∧ (validateSpec st now src d = none →
        bubbleCreate noFail st now sock src d
          = (acceptedState st now sock src d, acceptedEvents sock now d)) :=
  ⟨fun r h => bubbleCreate_of_validate_some noFail st now sock src d r h,
   fun h => bubbleCreate_of_validate_none st now sock src d h⟩

/-- C2, witness: the amended validation order at a concrete
out-of-range submission. -/
theorem C2_witness :
    bubbleCreate noFail emptyState 0 "sock" "ip"
        ⟨.vStr "al", .vStr "hi", .vNum 95, .vNum 0, .vNull⟩
      = (emptyState, [rejectionEvent Rejection.invalidCoordinates]) :=
  (C2_validation_order emptyState 0 "sock" "ip"
      ⟨.vStr "al", .vStr "hi", .vNum 95, .vNum 0, .vNull⟩).1
    Rejection.invalidCoordinates (by decide)

/-- C9, counterexample: a submission whose `name` is the empty string —
all four fields non-null — is rejected with `MissingFields`, because
line 132 tests truthiness (`!data.name`), not nullness. -/
theorem C9_counterexample :
    isNullish (JSVal.vStr "") = false
    ∧ isNullish (JSVal.vStr "hi") = false
    ∧ isNullish (JSVal.vNum 1) = false
    ∧ isNullish (JSVal.vNum 2) = false
    ∧ (bubbleCreate noFail emptyState 0 "sock" "ip"
        ⟨.vStr "", .vStr "hi", .vNum 1, .vNum 2, .vNull⟩).2
        = [Event.toViewer "bubble:error" (EvPayload.msg "Missing fields.")] := by
  decide

/-- C9 (amended): the handler emits `MissingFields` exactly when `name`
or `text` is falsy (null, undefined, empty string, `0`, or NaN) or `x`
or `y` is null/undefined; the coordinate value `0` never triggers it
(while truthy `name`/`text` are given), but in the minimal canvas
variant (`src/unnamed/part_001`), which tests `!data.x || !data.y`, the
coordinate value `0` does trigger it. -/
theorem C9_missing_fields_exact (st : ServerState) (now : ℕ) (sock src : String)
    (d : SubmitData) :
    ((bubbleCreate noFail st now sock src d).2
        = [Event.toViewer "bubble:error" (EvPayload.msg "Missing fields.")]
      ↔ missingCheck d = true)
    ∧ (∀ n t ty, truthy n = true → truthy t = true →
        missingCheck ⟨n, t, .vNum 0, .vNum 0, ty⟩ = false)
    ∧ missingCheckV1 ⟨.vStr "a", .vStr "b", .vNum 0, .vNum 1, .vNull⟩ = true := by
  refine ⟨⟨?_, ?_⟩, ?_, by decide⟩
  · intro h
    by_contra hm
    rw [Bool.not_eq_true] at hm
    cases hcd : getLive st.store ("cooldown:" ++ src) now with
    | some e =>
      rw [bubbleCreate_cooldown noFail st now sock src d e hm hcd] at h
      simp only [List.cons.injEq] at h
      exact absurd h.1 (by simp)
    | none =>
      by_cases hv : coordInvalid (toNumber d.x) (toNumber d.y) = true
      · rw [bubbleCreate_invalid noFail st now sock src d hm hcd hv] at h
        simp only [List.cons.injEq, Event.toViewer.injEq, EvPayload.msg.injEq] at h
        exact absurd h.1.2 (by decide)
      · rw [Bool.not_eq_true] at hv
        rw [bubbleCreate_accept st now sock src d hm hcd hv] at h
        simp [acceptedEvents] at h
  · intro h
    rw [bubbleCreate_missing noFail st now sock src d h]
  · intro n t ty hn ht
    simp [missingCheck, hn, ht, isNullish]

/-- C9, witness: the amended exactness at a concrete all-truthy
submission with both coordinates `0`. -/
theorem C9_witness :
    missingCheck ⟨.vStr "al", .vStr "hi", .vNum 0, .vNum 0, .vNull⟩ = false :=
  (C9_missing_fields_exact emptyState 0 "sock" "ip"
      ⟨.vStr "al", .vStr "hi", .vNum 0, .vNum 0, .vNull⟩).2.1
    (.vStr "al") (.vStr "hi") .vNull (by decide) (by decide)

/-- C3 (confirmed): every rejected submission leaves the state entirely
unchanged — no store write, no history append, no counter increment, no
cooldown arming (the cooldown check is a pure read) — the single
rejection event goes only to the originating viewer, and a subsequent
corrected submission from the same source in that same state is
accepted. -/
theorem C3_rejection_is_pure (st : ServerState) (now : ℕ) (sock src : String)
    (d : SubmitData) (r : Rejection)
    (h : validateSpec st now src d = some r) :
    (bubbleCreate noFail st now sock src d).1 = st
    ∧ (bubbleCreate noFail st now sock src d).2 = [rejectionEvent r]
    ∧ (∃ nm p, rejectionEvent r = Event.toViewer nm p)
    ∧ (∀ d', validateSpec st now src d' = none →
        isAcceptedOut (bubbleCreate noFail st now sock src d').2 = true) := by
  have hout := bubbleCreate_of_validate_some noFail st now sock src d r h
  refine ⟨by rw [hout], by rw [hout], rejectionEvent_toViewer r, ?_⟩
  intro d' h'
  rw [bubbleCreate_of_validate_none st now sock src d' h']
  simp [isAcceptedOut, acceptedEvents]

/-- C3, witness: a concrete rejected-then-corrected pair — the rejected
submission leaves the fresh state untouched, and the corrected one is
accepted there. -/
theorem C3_witness :
    (bubbleCreate noFail emptyState 3 "sock" "ip"
        ⟨.vNull, .vStr "hi", .vNum 1, .vNum 2, .vNull⟩).1 = emptyState
    ∧ isAcceptedOut (bubbleCreate noFail emptyState 3 "sock" "ip"
        ⟨.vStr "al", .vStr "hi", .vNum 1, .vNum 2, .vNull⟩).2 = true :=
  ⟨(C3_rejection_is_pure emptyState 3 "sock" "ip"
      ⟨.vNull, .vStr "hi", .vNum 1, .vNum 2, .vNull⟩ .missingFields (by decide)).1,
   (C3_rejection_is_pure emptyState 3 "sock" "ip"
      ⟨.vNull, .vStr "hi", .vNum 1, .vNum 2, .vNull⟩ .missingFields (by decide)).2.2.2
     ⟨.vStr "al", .vStr "hi", .vNum 1, .vNum 2, .vNull⟩ (by decide)⟩

/-- C5, counterexample: a non-numeric coordinate input (`x = "abc"`)
coerces to NaN, passes the range check of line 147 (every comparison
with NaN is false), and is accepted — yet the emitted bubble's
coordinates do not satisfy the geographic bounds. -/
theorem C5_counterexample :
    isAcceptedOut (bubbleCreate noFail emptyState 0 "sock" "ip"
        ⟨.vStr "bob", .vStr "hi", .vStr "abc", .vNum 0, .vStr "speech"⟩).2 = true
    ∧ (mkBubble "sock" 0 ⟨.vStr "bob", .vStr "hi", .vStr "abc", .vNum 0, .vStr "speech"⟩).x
        = JSNum.nan
    ∧ inGeoBounds
        (mkBubble "sock" 0 ⟨.vStr "bob", .vStr "hi", .vStr "abc", .vNum 0, .vStr "speech"⟩).x
        (mkBubble "sock" 0 ⟨.vStr "bob", .vStr "hi", .vStr "abc", .vNum 0, .vStr "speech"⟩).y
        = false := by
  decide

/-- C5 (amended): for every accepted submission the emitted bubble has
`name` of at most 20 characters, `text` of at most 280 characters,
`type` equal to `thought` exactly when the input type is strictly
`'thought'` and `speech` otherwise; whenever a coerced coordinate is a
finite number it satisfies the geographic bounds (and in the canvas
variant the clamp bounds) — but a non-numeric coordinate input coerces
to NaN and escapes the bounds (see the counterexample). -/
theorem C5_sanitization (st : ServerState) (now : ℕ) (sock src : String) (d : SubmitData)
    (h : validateSpec st now src d = none) :
    (mkBubble sock now d).name.length ≤ 20
    ∧ (mkBubble sock now d).text.length ≤ 280
    ∧ (d.type = JSVal.vStr "thought" → (mkBubble sock now d).type = "thought")
    ∧ (d.type ≠ JSVal.vStr "thought" → (mkBubble sock now d).type = "speech")
    ∧ (∀ a : ℚ, (mkBubble sock now d).x = .num a → -90 ≤ a ∧ a ≤ 90)
    ∧ (∀ b : ℚ, (mkBubble sock now d).y = .num b → -180 ≤ b ∧ b ≤ 180)
    ∧ (∀ v a, canvasX v = JSNum.num a → 0 ≤ a ∧ a ≤ 4000)
    ∧ (∀ v b, canvasY v = JSNum.num b → 0 ≤ b ∧ b ≤ 3000) := by
  have hv := ((validateSpec_none_iff st now src d).mp h).2.2
  refine ⟨substrTrim_length_le _ _, substrTrim_length_le _ _, ?_, ?_, ?_, ?_, ?_, ?_⟩
  · intro ht
    simp [mkBubble, ht]
  · intro ht
    simp [mkBubble, ht]
  · intro a hx
    have hx' : toNumber d.x = JSNum.num a := hx
    rw [hx'] at hv
    exact coordInvalid_false_x hv
  · intro b hy
    have hy' : toNumber d.y = JSNum.num b := hy
    rw [hy'] at hv
    exact coordInvalid_false_y hv
  · intro v a hca
    unfold canvasX jsMax jsMin at hca
    cases hn : toNumber v with
    | nan => rw [hn] at hca; simp at hca
    | num q =>
      rw [hn] at hca
      simp only [JSNum.num.injEq] at hca
      subst hca
      constructor
      · exact le_max_left _ _
      · exact max_le (by norm_num) (min_le_left _ _)
  · intro v b hca
    unfold canvasY jsMax jsMin at hca
    cases hn : toNumber v with
    | nan => rw [hn] at hca; simp at hca
    | num q =>
      rw [hn] at hca
      simp only [JSNum.num.injEq] at hca
      subst hca
      constructor
      · exact le_max_left _ _
      · exact max_le (by norm_num) (min_le_left _ _)

/-- C5, witness: the sanitization bounds at a concrete accepted
submission with an over-long name. -/
theorem C5_witness :
    (mkBubble "sock" 0
        ⟨.vStr "a very very long name indeed", .vStr "hi", .vNum 1, .vNum 2, .vNull⟩).name.length
      ≤ 20 :=
  (C5_sanitization emptyState 0 "sock" "ip"
      ⟨.vStr "a very very long name indeed", .vStr "hi", .vNum 1, .vNum 2, .vNull⟩
      (by decide)).1

/-- C1, counterexample: a valid submission whose primary store write
succeeds but whose history append throws — the bubble stays stored
(write not rolled back), yet the handler's catch emits only the generic
error to the submitter and the `bubble:new` broadcast never happens,
contradicting the claim that the bubble still goes live. -/
theorem C1_counterexample :
    (bubbleCreate (failOnly SideOp.pushHistory) emptyState 0 "sock" "ip"
        ⟨.vStr "bob", .vStr "hi", .vNum 1, .vNum 2, .vStr "speech"⟩).2 = [genericError]
    ∧ containsBroadcast (bubbleCreate (failOnly SideOp.pushHistory) emptyState 0 "sock" "ip"
        ⟨.vStr "bob", .vStr "hi", .vNum 1, .vNum 2, .vStr "speech"⟩).2 = false
    ∧ lookupKey (bubbleCreate (failOnly SideOp.pushHistory) emptyState 0 "sock" "ip"
        ⟨.vStr "bob", .vStr "hi", .vNum 1, .vNum 2, .vStr "speech"⟩).1.store "bubble:sock-0"
        = some ⟨"bubble:sock-0",
            .bubbleJson (mkBubble "sock" 0 ⟨.vStr "bob", .vStr "hi", .vNum 1, .vNum 2, .vStr "speech"⟩),
            300⟩ := by
  decide

/-- C1 (amended): when any side effect after the primary bubble write
fails (cooldown arm, history append, trim, either counter increment, or
the daily-counter expiry), the stored bubble is not rolled back — it
remains in the store with its full TTL — but it does not go live: the
handler emits only the generic error to the submitter and no broadcast
occurs.  Only a fully successful run broadcasts the bubble to all
viewers and the admin room. -/
theorem C1_stored_but_not_broadcast (st : ServerState) (now : ℕ) (sock src : String)
    (d : SubmitData) (op : SideOp)
    (hop : op ≠ SideOp.setBubble)
    (h : validateSpec st now src d = none) :
    lookupKey (bubbleCreate (failOnly op) st now sock src d).1.store
        ("bubble:" ++ (mkBubble sock now d).id)
      = some ⟨"bubble:" ++ (mkBubble sock now d).id, .bubbleJson (mkBubble sock now d),
          now + BUBBLE_TTL⟩
    ∧ (bubbleCreate (failOnly op) st now sock src d).2 = [genericError]
    ∧ containsBroadcast (bubbleCreate (failOnly op) st now sock src d).2 = false
    ∧ (bubbleCreate noFail st now sock src d).2 = acceptedEvents sock now d := by
  rcases (validateSpec_none_iff st now src d).mp h with ⟨hm, hcd, hcv⟩
  have hsingle : lookupKey
      (setEx st.store ("bubble:" ++ (mkBubble sock now d).id) BUBBLE_TTL
        (.bubbleJson (mkBubble sock now d)) now)
      ("bubble:" ++ (mkBubble sock now d).id)
      = some ⟨"bubble:" ++ (mkBubble sock now d).id, .bubbleJson (mkBubble sock now d),
          now + BUBBLE_TTL⟩ :=
    lookupKey_setEx_self _ _ _ _ _
  have hdouble : lookupKey
      (setEx (setEx st.store ("bubble:" ++ (mkBubble sock now d).id) BUBBLE_TTL
        (.bubbleJson (mkBubble sock now d)) now) ("cooldown:" ++ src) COOLDOWN_TTL
        (.str "1") now)
      ("bubble:" ++ (mkBubble sock now d).id)
      = some ⟨"bubble:" ++ (mkBubble sock now d).id, .bubbleJson (mkBubble sock now d),
          now + BUBBLE_TTL⟩ := by
    rw [lookupKey_setEx_ne _ _ _ _ _ _ (bubble_key_ne_cooldown_key _ _)]
    exact hsingle
  have hlast := bubbleCreate_of_validate_none st now sock src d h
  cases op with
  | setBubble => exact absurd rfl hop
  | armCooldown =>
    refine ⟨?_, ?_, ?_, by rw [hlast]⟩ <;>
      simp [bubbleCreate, failOnly, hm, hcd, hcv, hsingle, containsBroadcast, genericError]
  | pushHistory =>
    refine ⟨?_, ?_, ?_, by rw [hlast]⟩ <;>
      simp [bubbleCreate, failOnly, hm, hcd, hcv, hdouble, containsBroadcast, genericError]
  | trimHistory =>
    refine ⟨?_, ?_, ?_, by rw [hlast]⟩ <;>
      simp [bubbleCreate, failOnly, hm, hcd, hcv, hdouble, containsBroadcast, genericError]
  | incrTotal =>
    refine ⟨?_, ?_, ?_, by rw [hlast]⟩ <;>
      simp [bubbleCreate, failOnly, hm, hcd, hcv, hdouble, containsBroadcast, genericError]
  | incrToday =>
    refine ⟨?_, ?_, ?_, by rw [hlast]⟩ <;>
      simp [bubbleCreate, failOnly, hm, hcd, hcv, hdouble, containsBroadcast, genericError]
  | expireToday =>
    refine ⟨?_, ?_, ?_, by rw [hlast]⟩ <;>
      simp [bubbleCreate, failOnly, hm, hcd, hcv, hdouble, containsBroadcast, genericError]

/-- C1, witness: the amended behaviour at a concrete submission whose
daily-counter increment fails. -/
theorem C1_witness :
    (bubbleCreate (failOnly SideOp.incrToday) emptyState 5 "sck" "ip2"
        ⟨.vStr "ann", .vStr "yo", .vNum 3, .vNum 4, .vNull⟩).2 = [genericError] :=
  (C1_stored_but_not_broadcast emptyState 5 "sck" "ip2"
      ⟨.vStr "ann", .vStr "yo", .vNum 3, .vNum 4, .vNull⟩ SideOp.incrToday
      (by decide) (by decide)).2.1

/-- C4, counterexample: a planted seed bubble goes live — it is written
to the store and broadcast as `bubble:new` — yet nothing is appended to
the history log and neither counter is incremented: `plantBatch` does
not call the submission entry point. -/
theorem C4_counterexample :
    containsBroadcast (plantBatch emptyState 0 [seedChoiceSfx "k1"]).2 = true
    ∧ liveBubbleCount (plantBatch emptyState 0 [seedChoiceSfx "k1"]).1 0 = 1
    ∧ (plantBatch emptyState 0 [seedChoiceSfx "k1"]).1.history = []
    ∧ (plantBatch emptyState 0 [seedChoiceSfx "k1"]).1.totalMessages = 0
    ∧ (plantBatch emptyState 0 [seedChoiceSfx "k1"]).1.todayCount = 0 := by
  decide

/-- C4 (amended): every accepted real submission appends its bubble
exactly once at the end of the history log (preserving submission
order, subject to the 10,000-entry trim) and increments both the total
and daily counters; seed bubbles, by contrast, are written directly to
the store and broadcast with no history append and no counter
increment. -/
theorem C4_history_and_counters (st : ServerState) (now : ℕ) (sock src : String)
    (d : SubmitData) (h : validateSpec st now src d = none) :
    (bubbleCreate noFail st now sock src d).1.history
        = lastN 10000 (st.history ++ [RVal.bubbleJson (mkBubble sock now d)])
    ∧ (st.history.length < 10000 →
        (bubbleCreate noFail st now sock src d).1.history
          = st.history ++ [RVal.bubbleJson (mkBubble sock now d)])
    ∧ (bubbleCreate noFail st now sock src d).1.totalMessages = st.totalMessages + 1
    ∧ (bubbleCreate noFail st now sock src d).1.todayCount = st.todayCount + 1
    ∧ (∀ ch, (plantBatch st now ch).1.history = st.history
        ∧ (plantBatch st now ch).1.totalMessages = st.totalMessages
        ∧ (plantBatch st now ch).1.todayCount = st.todayCount) := by
  have hout := bubbleCreate_of_validate_none st now sock src d h
  refine ⟨by rw [hout]; simp only [acceptedState], ?_,
    by rw [hout]; simp only [acceptedState], by rw [hout]; simp only [acceptedState],
    fun ch => plantBatch_bookkeeping now ch st⟩
  intro hlen
  rw [hout]
  simp only [acceptedState]
  exact lastN_append_of_lt _ _ _ hlen

/-- C4, witness: a concrete accepted submission increments the total
counter and lands at the end of the (empty) history. -/
theorem C4_witness :
    (bubbleCreate noFail emptyState 2 "sock" "ip"
        ⟨.vStr "zed", .vStr "yo", .vNum 5, .vNum 6, .vNull⟩).1.totalMessages = 1
    ∧ (bubbleCreate noFail emptyState 2 "sock" "ip"
        ⟨.vStr "zed", .vStr "yo", .vNum 5, .vNum 6, .vNull⟩).1.history
      = [RVal.bubbleJson (mkBubble "sock" 2 ⟨.vStr "zed", .vStr "yo", .vNum 5, .vNum 6, .vNull⟩)] :=
  ⟨(C4_history_and_counters emptyState 2 "sock" "ip"
      ⟨.vStr "zed", .vStr "yo", .vNum 5, .vNum 6, .vNull⟩ (by decide)).2.2.1,
   (C4_history_and_counters emptyState 2 "sock" "ip"
      ⟨.vStr "zed", .vStr "yo", .vNum 5, .vNum 6, .vNull⟩ (by decide)).2.1 (by decide)⟩

/-- C6 (confirmed): when every stored `bubble:` value is well-formed, a
connecting viewer's replay never aborts: it emits one private
`bubble:existing` event per enumerated key still live at read time (a
key that expired between enumeration and read is silently skipped);
with no expiry in between it delivers exactly the `N` live bubbles, and
every delivered event carries a strictly positive `remainingMs`
recomputed from the store's TTL. -/
theorem C6_replay_exact (st : ServerState) (tE tR : ℕ)
    (hwf : ∀ e ∈ st.store, strStarts "bubble:" e.key = true → (parseBubble e.val).isSome = true) :
    replayOnConnect st tE tR
        = (liveKeysMatching st.store "bubble:" tE).filterMap (replayEventFor st tR)
    ∧ (replayOnConnect st tE tE).length = liveBubbleCount st tE
    ∧ (∀ ev ∈ replayOnConnect st tE tR,
        ∃ b rem, ev = Event.toViewer "bubble:existing" (EvPayload.bubble b rem) ∧ 0 < rem) := by
  have hsub : ∀ tX : ℕ, ∀ k ∈ liveKeysMatching st.store "bubble:" tE, ∀ e : Entry,
      getLive st.store k tX = some e → (parseBubble e.val).isSome = true := by
    intro tX k hk e hg
    have hp := getLive_some_props hg
    rcases mem_liveKeysMatching.mp hk with ⟨e', _, _, hs', hk'⟩
    exact hwf e hp.1 (by rw [hp.2.2, ← hk']; exact hs')
  refine ⟨replayLoop_eq_filterMap st tR _ (hsub tR), ?_, ?_⟩
  · rw [show replayOnConnect st tE tE = replayLoop st tE (liveKeysMatching st.store "bubble:" tE)
        from rfl,
      replayLoop_eq_filterMap st tE _ (hsub tE)]
    refine length_filterMap_of_isSome _ _ ?_
    intro k hk
    rcases mem_liveKeysMatching.mp hk with ⟨e', he', hl', hs', hk'⟩
    have hg : (getLive st.store k tE).isSome = true :=
      getLive_isSome_of_live_mem he' hl' hk'
    rcases Option.isSome_iff_exists.mp hg with ⟨e, hge⟩
    have hps := hsub tE k hk e hge
    rcases Option.isSome_iff_exists.mp hps with ⟨b, hb⟩
    simp only [replayEventFor, hge, Option.some_bind, hb, Option.map_some']
    rfl
  · exact replayLoop_shape st tR _

/-- C6, witness: with one live well-formed bubble, the replay delivers
exactly one event. -/
theorem C6_witness :
    (replayOnConnect stOneBubble 0 0).length = liveBubbleCount stOneBubble 0 :=
  (C6_replay_exact stOneBubble 0 0 (by decide)).2.1

/-- C7, counterexample: with a corrupt `bubble:` value stored ahead of a
live well-formed bubble, the connection replay aborts at the corrupt
entry and delivers nothing — the well-formed live bubble is lost with
it, instead of only the corrupt entry being dropped. -/
theorem C7_counterexample :
    liveBubbleCount stCorrupt 0 = 2
    ∧ getLive stCorrupt.store "bubble:b" 0
        = some ⟨"bubble:b", .bubbleJson ⟨"b", "nm", "tx", .num 1, .num 2, "speech", 0⟩, 100⟩
    ∧ parseBubble (RVal.bubbleJson ⟨"b", "nm", "tx", .num 1, .num 2, "speech", 0⟩)
        = some ⟨"b", "nm", "tx", .num 1, .num 2, "speech", 0⟩
    ∧ replayOnConnect stCorrupt 0 0 = [] := by
  decide

/-- C7 (amended): the history log is trimmed on every append and the
retained length never exceeds 10,000; the history and heatmap queries
drop an individual unparseable entry and keep the rest; the connection
replay, however, aborts at the first unparseable live entry (events
already emitted stand, later entries are lost). -/
theorem C7_trim_and_parse (st : ServerState) (now : ℕ) (sock src : String) (d : SubmitData) :
    (validateSpec st now src d = none →
        (bubbleCreate noFail st now sock src d).1.history.length ≤ 10000)
    ∧ (∀ (l1 l2 : List RVal) (v : RVal) (store0 : List Entry) (tm td : ℕ),
        parseBubble v = none →
        historyRead ⟨store0, l1 ++ v :: l2, tm, td⟩ = historyRead ⟨store0, l1 ++ l2, tm, td⟩
        ∧ heatmapRead ⟨store0, l1 ++ v :: l2, tm, td⟩ = heatmapRead ⟨store0, l1 ++ l2, tm, td⟩)
    ∧ (∀ (k : String) (ks : List String) (e : Entry),
        getLive st.store k now = some e → parseBubble e.val = none →
        replayLoop st now (k :: ks) = []) := by
  refine ⟨?_, ?_, ?_⟩
  · intro h
    rw [bubbleCreate_of_validate_none st now sock src d h]
    simp only [acceptedState]
    exact lastN_length_le _ _
  · intro l1 l2 v store0 tm td hv
    constructor
    · simp [historyRead, List.filterMap_append, List.filterMap_cons, hv]
    · simp [heatmapRead, List.filterMap_append, List.filterMap_cons, hv]
  · intro k ks e hg hp
    simp only [replayLoop, hg, hp]

/-- C7, witness: the amended behaviour at the concrete corrupt store —
the replay loop on the corrupt key aborts at once. -/
theorem C7_witness :
    replayLoop stCorrupt 0 ["bubble:a"] = [] :=
  (C7_trim_and_parse stCorrupt 0 "sock" "ip"
      ⟨.vNull, .vNull, .vNull, .vNull, .vNull⟩).2.2
    "bubble:a" [] ⟨"bubble:a", RVal.str "corrupt", 100⟩ (by decide) (by decide)

/-- C8, counterexample: the startup branch of `seedMessages` plants a
batch whenever fewer than 8 bubbles are live, so with exactly 6 live
bubbles — at the low-water mark — seed injection runs, contradicting
the claim that it never runs at a count of 6 or above. -/
theorem C8_counterexample :
    liveBubbleCount st6 0 = 6
    ∧ containsBroadcast (seedInitial st6 0 batch8).2 = true
    ∧ liveBubbleCount (seedInitial st6 0 batch8).1 0 = 14 := by
  decide

/-- C8 (amended): the periodic seed branch runs only when the live
count is strictly below the low-water mark 6 (at a count of 6 or more
it does nothing), while the startup branch skips only at a count of 8
or more — so startup seeding can run at counts 6 and 7; and whenever a
batch of at least 8 fresh, distinct, immediately-live seed bubbles is
planted, the resulting live count exceeds 6. -/
theorem C8_seed_thresholds (st : ServerState) (now : ℕ) (ch : List SeedChoice)
    (hfresh : ∀ c ∈ ch, lookupKey st.store (seedKey now c) = none)
    (hnd : (ch.map (seedKey now)).Nodup)
    (httl : ∀ c ∈ ch, 1 ≤ c.ttl)
    (hlen : 8 ≤ ch.length) :
    (6 ≤ liveBubbleCount st now → seedPeriodic st now ch = (st, []))
    ∧ (8 ≤ liveBubbleCount st now → seedInitial st now ch = (st, []))
    ∧ liveBubbleCount (plantBatch st now ch).1 now = liveBubbleCount st now + ch.length
    ∧ 6 < liveBubbleCount (plantBatch st now ch).1 now := by
  have hcount := plantBatch_liveCount now ch st hfresh hnd httl
  refine ⟨?_, ?_, hcount, by rw [hcount]; omega⟩
  · intro h6
    unfold seedPeriodic
    rw [if_neg (by omega)]
  · intro h8
    unfold seedInitial
    rw [if_pos h8]

/-- C8, witness: planting the concrete eight-bubble batch on an empty
store yields eight live bubbles. -/
theorem C8_witness :
    liveBubbleCount (plantBatch emptyState 0 batch8).1 0 = 8 :=
  (C8_seed_thresholds emptyState 0 batch8 (by decide) (by decide) (by decide)
      (by decide)).2.2.1

/-- When serialized — four consecutive steps of a single invocation —
the interleaved task machine coincides with the atomic handler
embedding, in final state and emitted events. -/
theorem runSched_single_task (st : ServerState) (now : ℕ) (sock src : String)
    (d : SubmitData) :
    runSched st [⟨TaskPC.start, sock, src, d⟩] [(now, 0), (now, 0), (now, 0), (now, 0)]
      = ((bubbleCreate noFail st now sock src d).1,
         [⟨TaskPC.done, sock, src, d⟩],
         (bubbleCreate noFail st now sock src d).2) := by
  by_cases hm : missingCheck d = true
  · rw [bubbleCreate_missing noFail st now sock src d hm]
    simp [runSched, stepTask, hm]
  · rw [Bool.not_eq_true] at hm
    cases hcd : getLive st.store ("cooldown:" ++ src) now with
    | some e =>
      rw [bubbleCreate_cooldown noFail st now sock src d e hm hcd]
      simp [runSched, stepTask, hm, hcd]
    | none =>
      by_cases hv : coordInvalid (toNumber d.x) (toNumber d.y) = true
      · rw [bubbleCreate_invalid noFail st now sock src d hm hcd hv]
        simp [runSched, stepTask, hm, hcd, hv]
      · rw [Bool.not_eq_true] at hv
        rw [bubbleCreate_accept st now sock src d hm hcd hv]
        simp [runSched, stepTask, hm, hcd, hv, acceptedState, acceptedEvents]

/-- C10, counterexample: the cooldown read (line 138) and the cooldown
arm (line 163) are separate awaited calls, so two concurrent
submissions from the same source can interleave so that both read an
absent marker before either arms it: in the concrete interleaved run
both are accepted (two broadcasts) and the source has two live bubbles
of its own at time 1 — refuting the at-every-point-in-time claim.
Serializing the same two invocations accepts only the first and
rejects the second with `OnCooldown`. -/
theorem C10_counterexample :
    countBroadcasts raceRun.2.2 = 2
    ∧ liveBubbleCount raceRun.1 1 = 2
    ∧ getLive raceRun.1.store "bubble:sA-0" 1 ≠ none
    ∧ getLive raceRun.1.store "bubble:sB-0" 1 ≠ none
    ∧ raceTasks.map TaskState.sourceId = ["ip", "ip"]
    ∧ countBroadcasts serialRun.2.2 = 1
    ∧ liveBubbleCount serialRun.1 1 = 1 := by
  decide

/-- C10 (amended): `BUBBLE_TTL` and `COOLDOWN_TTL` are the same 300
seconds, and under SERIALIZED handler executions — each `bubble:create`
invocation completing before the next begins, the regime in which the
interleaved task machine coincides with the atomic handler embedding
(last conjunct) — the accepted submissions of one source are at least
`COOLDOWN_TTL` seconds apart, so at every instant at most one of the
source's accepted submissions is within its bubble's `BUBBLE_TTL`
lifetime; on acceptance the bubble is stored under its `bubble:` key
expiring exactly `BUBBLE_TTL` after creation, tying that lifetime to
the stored entry.  Under concurrent interleaving of the handler's
awaits the invariant fails (see the counterexample). -/
theorem C10_one_live_bubble_per_source (st : ServerState) (src : String) (rs : List Req) :
    BUBBLE_TTL = COOLDOWN_TTL
    ∧ List.Chain' (fun a b => a + COOLDOWN_TTL ≤ b) (acceptedTimes st src rs)
    ∧ (∀ t : ℕ, (acceptedTimes st src rs).countP
        (fun c => decide (c ≤ t) && decide (t < c + BUBBLE_TTL)) ≤ 1)
    ∧ (∀ (st2 : ServerState) (now2 : ℕ) (sock2 : String) (d2 : SubmitData),
        validateSpec st2 now2 src d2 = none →
        lookupKey (bubbleCreate noFail st2 now2 sock2 src d2).1.store
            ("bubble:" ++ (mkBubble sock2 now2 d2).id)
          = some ⟨"bubble:" ++ (mkBubble sock2 now2 d2).id,
              .bubbleJson (mkBubble sock2 now2 d2), now2 + BUBBLE_TTL⟩)
    ∧ (∀ (st2 : ServerState) (now2 : ℕ) (sock2 : String) (d2 : SubmitData),
        runSched st2 [⟨TaskPC.start, sock2, src, d2⟩]
            [(now2, 0), (now2, 0), (now2, 0), (now2, 0)]
          = ((bubbleCreate noFail st2 now2 sock2 src d2).1,
             [⟨TaskPC.done, sock2, src, d2⟩],
             (bubbleCreate noFail st2 now2 sock2 src d2).2)) := by
  have hch := (acceptedTimes_chain src rs st).1
  refine ⟨rfl, hch, fun t => countP_le_one_of_chain t _ hch, ?_, ?_⟩
  · intro st2 now2 sock2 d2 h2
    rw [bubbleCreate_of_validate_none st2 now2 sock2 src d2 h2]
    exact lookupKey_acceptedState_bubble st2 now2 sock2 src d2
  · intro st2 now2 sock2 d2
    exact runSched_single_task st2 now2 sock2 src d2

/-- C10, witness: a concrete accepted submission stores its bubble with
expiry `BUBBLE_TTL` after creation. -/
theorem C10_witness :
    lookupKey (bubbleCreate noFail emptyState 9 "sk" "ipA"
        ⟨.vStr "joe", .vStr "hey", .vNum 10, .vNum 20, .vNull⟩).1.store
        ("bubble:" ++ (mkBubble "sk" 9 ⟨.vStr "joe", .vStr "hey", .vNum 10, .vNum 20, .vNull⟩).id)
      = some ⟨"bubble:" ++ (mkBubble "sk" 9 ⟨.vStr "joe", .vStr "hey", .vNum 10, .vNum 20, .vNull⟩).id,
          .bubbleJson (mkBubble "sk" 9 ⟨.vStr "joe", .vStr "hey", .vNum 10, .vNum 20, .vNull⟩),
          9 + BUBBLE_TTL⟩ :=
  (C10_one_live_bubble_per_source emptyState "ipA" []).2.2.2.1
    emptyState 9 "sk" ⟨.vStr "joe", .vStr "hey", .vNum 10, .vNum 20, .vNull⟩ (by decide)
